import Mathlib

/-!
Verification of the aggregation logic of the Australia Wildfires Dashboard.

The embedding below models `src/logic.py` (the `compute_info` function),
the relevant parts of `src/figures.py` (`generate_donut`, `generate_bar`)
and `src/constants.py`.  Pandas dataframes become lists of records, the
numeric columns become exact rationals, pandas `groupby(..., sort=False)`
becomes grouping in first-occurrence order, pandas `round(0)` becomes
round-half-to-even, and Python's `int(str)` cast (which raises
`ValueError` on a non-numeric string) becomes an `Option`-valued parser.
-/

namespace Wildfires

/-- Data row of the wildfires dataset: the columns of the dataframe that
`compute_info` reads (`Region`, `Year`, `Month_name`,
`Estimated_fire_area`, `Count`). -/
structure Record where
  region : String
  year : Int
  month_name : String
  estimated_fire_area : ℚ
  count : ℚ
deriving DecidableEq, Repr

/-- Digit run of a Python integer literal: `some n` when the character
list is a nonempty run of decimal digits, else `none`. -/
def pyDigits (ds : List Char) : Option Nat :=
  if ds ≠ [] ∧ ds.all Char.isDigit then
    some (ds.foldl (fun a c => a * 10 + (c.toNat - 48)) 0)
  else
    none

/-- Whitespace stripped from both ends, as Python `int(str)` does before
parsing. -/
def stripWS (ds : List Char) : List Char :=
  ((ds.dropWhile Char.isWhitespace).reverse.dropWhile Char.isWhitespace).reverse

/-- Model of Python's `int(s)` applied to a string: optional surrounding
whitespace, an optional sign, then a nonempty run of decimal digits;
any other string raises `ValueError`, modelled as `none`. -/
def pyInt (s : String) : Option Int :=
  match stripWS s.data with
  | [] => none
  | c :: cs =>
    if c == '-' then (pyDigits cs).map (fun n => -(n : Int))
    else if c == '+' then (pyDigits cs).map (fun n => (n : Int))
    else (pyDigits (c :: cs)).map (fun n => (n : Int))

/-- Rounding to the nearest integer with ties to even, the behaviour of
pandas/numpy `round(0)` used on the monthly pixel-count means. -/
def roundHalfEven (q : ℚ) : ℤ :=
  if q - q.floor < 1/2 then q.floor
  else if q - q.floor > 1/2 then q.floor + 1
  else if q.floor % 2 = 0 then q.floor else q.floor + 1

/-- Model of Python's `int(x)` on a float/rational value: truncation
toward zero, as used on `total_pixels` in `generate_bar`. -/
def pyTrunc (q : ℚ) : ℤ :=
  if 0 ≤ q then q.floor else -((-q).floor)

/-- Row filter of `compute_info`:
`data[(data["Region"] == entered_region) & (data["Year"] == int(entered_year))]`. -/
def filterDF (data : List Record) (entered_region : String) (year : Int) :
    List Record :=
  data.filter (fun r => r.region == entered_region && r.year == year)

/-- Distinct elements of a list in the order of their first occurrence:
the key order produced by pandas `groupby(..., sort=False)` and by
`Series.unique()`. -/
def uniqueFirst (l : List String) : List String :=
  l.foldl (fun acc m => if m ∈ acc then acc else acc ++ [m]) []

/-- Group keys of `df.groupby(df["Month_name"], sort=False)`: the month
names of `df` in first-occurrence order. -/
def monthsInOrder (df : List Record) : List String :=
  uniqueFirst (df.map Record.month_name)

/-- Arithmetic mean of the column `f` over the rows of `df` whose
`Month_name` equals `m` — one group's `.mean()` in `compute_info`. -/
def groupMean (df : List Record) (f : Record → ℚ) (m : String) : ℚ :=
  let g := df.filter (fun r => r.month_name == m)
  (g.map f).sum / (g.length : ℚ)

/-- Local `avg_fire_area` of `compute_info`, as a function of the
filtered frame `df`: the monthly mean of `Estimated_fire_area`, grouped
by `Month_name` with `sort=False`. -/
def avg_fire_area (df : List Record) : List (String × ℚ) :=
  (monthsInOrder df).map
    (fun m => (m, groupMean df Record.estimated_fire_area m))

/-- Local `total_area` of `compute_info`:
`avg_fire_area["Estimated_fire_area"].sum(axis=0)`. -/
def total_area (df : List Record) : ℚ :=
  ((avg_fire_area df).map Prod.snd).sum

/-- Local `avg_count_pixels` of `compute_info`: the monthly mean of
`Count` grouped by `Month_name` with `sort=False`, rounded to 0 decimals
with pandas `round`. -/
def avg_count_pixels (df : List Record) : List (String × ℚ) :=
  (monthsInOrder df).map
    (fun m => (m, ((roundHalfEven (groupMean df Record.count m) : ℤ) : ℚ)))

/-- Local `total_pixels` of `compute_info`:
`avg_count_pixels["Count"].sum(axis=0)`. -/
def total_pixels (df : List Record) : ℚ :=
  ((avg_count_pixels df).map Prod.snd).sum

/-- Embedding of `compute_info` from `src/logic.py`: filters the data by
region and by the year string cast with `int(...)` (hence `none` when the
cast raises), groups by month name in first-occurrence order, averages
`Estimated_fire_area` and `Count` per month (the latter rounded to 0
decimals), and returns both monthly tables along with the sums of their
mean columns. -/
def compute_info (data : List Record) (entered_region : String)
    (entered_year : String) :
    Option ((List (String × ℚ)) × ℚ × (List (String × ℚ)) × ℚ) :=
  match pyInt entered_year with
  | none => none
  | some y =>
    let df := filterDF data entered_region y
    some (avg_fire_area df, total_area df, avg_count_pixels df, total_pixels df)

/-- Chart description produced by `generate_donut` in `src/figures.py`,
restricted to the parts that depend on its inputs: the slice labels
(`names=df["Month_name"].unique()` with `sort=False`), the slice values,
the hole size, and the numeric total shown in the centre (formatted to
two decimals in the source). -/
structure DonutSpec where
  labels : List String
  values : List ℚ
  hole : ℚ
  centerTotal : ℚ
deriving DecidableEq, Repr

/-- Chart description produced by `generate_bar` in `src/figures.py`,
restricted to the parts that depend on its inputs: one bar per row of the
input table and the `int(total_pixels)` value shown in the top
`Total number of pixels` text. -/
structure BarSpec where
  xLabels : List String
  yValues : List ℚ
  totalShown : ℤ
deriving DecidableEq, Repr

/-- Embedding of `generate_donut` from `src/figures.py`: slices come from
the `Estimated_fire_area` column in row order, labels from
`df["Month_name"].unique()`, `hole=0.4`, and the centre text shows
`total_area`. -/
def generate_donut (df : List (String × ℚ)) (total_area : ℚ) : DonutSpec :=
  { labels := uniqueFirst (df.map Prod.fst)
    values := df.map Prod.snd
    hole := 2/5
    centerTotal := total_area }

/-- Embedding of `generate_bar` from `src/figures.py`: one bar per row of
the aggregate table (`x="Month_name"`, `y="Count"`) and a text showing
`int(total_pixels)`. -/
def generate_bar (df : List (String × ℚ)) (total_pixels : ℚ) : BarSpec :=
  { xLabels := df.map Prod.fst
    yValues := df.map Prod.snd
    totalShown := pyTrunc total_pixels }

/-- Region option values from `src/constants.py` (`REGIONS`), in order. -/
def REGIONS : List String := ["NSW", "NT", "QLD", "SA", "TAS", "VIC", "WA"]

/-- Year options from `src/constants.py` (`YEARS = tuple(range(2005, 2021))`). -/
def YEARS : List Int := (List.range 16).map (fun i => 2005 + (i : Int))

/-- Specification-side description of first-occurrence order: the head of
the list followed by the first occurrences of the tail with all copies of
the head removed.  Used to state the month-ordering claims independently
of the `foldl` in `uniqueFirst`. -/
def firstOccurrences : List String → List String
  | [] => []
  | m :: rest => m :: firstOccurrences (rest.filter (fun x => !(x == m)))
  termination_by l => l.length
  decreasing_by
    simp only [List.length_cons]
    exact Nat.lt_succ_of_le (List.length_filter_le _ _)

/-- Three-row dataset of the worked scenario in the specification:
`{(NSW,2019,Jan,10.0,100), (NSW,2019,Jan,20.0,300), (NSW,2019,Feb,5.0,50)}`. -/
def sampleData : List Record :=
  [⟨"NSW", 2019, "Jan", 10, 100⟩,
   ⟨"NSW", 2019, "Jan", 20, 300⟩,
   ⟨"NSW", 2019, "Feb", 5, 50⟩]

/-! Helper lemmas. -/

lemma ratFloor_eq_intFloor (q : ℚ) : q.floor = ⌊q⌋ := by
  rw [Rat.floor_def, Rat.floor_def']

lemma roundHalfEven_intCast (z : ℤ) : roundHalfEven ((z : ℤ) : ℚ) = z := by
  have hf : ((z : ℚ)).floor = z := by rw [ratFloor_eq_intFloor, Int.floor_intCast]
  rw [roundHalfEven, hf]
  norm_num

lemma pyTrunc_intCast (z : ℤ) : pyTrunc ((z : ℤ) : ℚ) = z := by
  have hf : ∀ w : ℤ, ((w : ℚ)).floor = w := fun w => by
    rw [ratFloor_eq_intFloor, Int.floor_intCast]
  rw [pyTrunc]
  by_cases h : (0 : ℚ) ≤ (z : ℚ)
  · rw [if_pos h, hf]
  · rw [if_neg h, show (-(z : ℚ)) = ((-z : ℤ) : ℚ) by push_cast; ring, hf, neg_neg]

lemma uniqueFirst_go (l : List String) : ∀ acc : List String,
    l.foldl (fun acc m => if m ∈ acc then acc else acc ++ [m]) acc
      = acc ++ firstOccurrences (l.filter (fun x => !(decide (x ∈ acc)))) := by
  induction l with
  | nil => intro acc; simp [firstOccurrences]
  | cons m l ih =>
    intro acc
    by_cases h : m ∈ acc
    · rw [List.foldl_cons]
      simp only [if_pos h]
      rw [ih, List.filter_cons_of_neg (by simp [h])]
    · rw [List.foldl_cons]
      simp only [if_neg h]
      rw [ih, List.filter_cons_of_pos (by simp [h]), firstOccurrences,
        List.append_assoc]
      have hpred : (l.filter (fun x => !(decide (x ∈ acc ++ [m]))))
          = ((l.filter (fun x => !(decide (x ∈ acc)))).filter (fun x => !(x == m))) := by
        rw [List.filter_filter]
        refine List.filter_congr (fun x _ => ?_)
        by_cases h1 : x ∈ acc <;> by_cases h2 : x = m <;>
          simp [h1, h2, List.mem_append]
      rw [hpred]
      rfl

lemma uniqueFirst_eq_firstOccurrences (l : List String) :
    uniqueFirst l = firstOccurrences l := by
  have h := uniqueFirst_go l []
  simpa [uniqueFirst] using h

lemma monthsInOrder_eq_firstOccurrences (df : List Record) :
    monthsInOrder df = firstOccurrences (df.map Record.month_name) := by
  rw [monthsInOrder, uniqueFirst_eq_firstOccurrences]

lemma sum_map_intCast (l : List String) (g : String → ℤ) :
    (l.map (fun m => ((g m : ℤ) : ℚ))).sum = (((l.map g).sum : ℤ) : ℚ) := by
  induction l with
  | nil => simp
  | cons m l ih => simp [ih]

lemma compute_info_eq_some {entered_year : String} {y : Int}
    (data : List Record) (entered_region : String)
    (hy : pyInt entered_year = some y) :
    compute_info data entered_region entered_year =
      some (avg_fire_area (filterDF data entered_region y),
            total_area (filterDF data entered_region y),
            avg_count_pixels (filterDF data entered_region y),
            total_pixels (filterDF data entered_region y)) := by
  unfold compute_info
  rw [hy]

lemma map_fst_pairs (l : List String) (g : String → ℚ) :
    ((l.map (fun m => (m, g m))).map Prod.fst) = l := by
  rw [List.map_map]
  exact List.map_id l

lemma total_pixels_eq_intCast (df : List Record) :
    total_pixels df
      = ((((monthsInOrder df).map
          (fun m => roundHalfEven (groupMean df Record.count m))).sum : ℤ) : ℚ) := by
  rw [total_pixels, avg_count_pixels, List.map_map]
  exact sum_map_intCast _ _

lemma sample_eval :
    compute_info sampleData "NSW" "2019"
      = some ([("Jan", 15), ("Feb", 5)], 20, [("Jan", 200), ("Feb", 50)], 250) := by
  have hy : pyInt "2019" = some 2019 := by decide
  rw [compute_info_eq_some sampleData "NSW" hy]
  rw [show filterDF sampleData "NSW" 2019 = sampleData from by decide]
  have hmonths : monthsInOrder sampleData = ["Jan", "Feb"] := by decide
  have hjan : sampleData.filter (fun r : Record => r.month_name == "Jan")
      = [⟨"NSW", 2019, "Jan", 10, 100⟩, ⟨"NSW", 2019, "Jan", 20, 300⟩] := by decide
  have hfeb : sampleData.filter (fun r : Record => r.month_name == "Feb")
      = [⟨"NSW", 2019, "Feb", 5, 50⟩] := by decide
  have hgAjan : groupMean sampleData Record.estimated_fire_area "Jan" = 15 := by
    rw [groupMean, hjan]; norm_num
  have hgAfeb : groupMean sampleData Record.estimated_fire_area "Feb" = 5 := by
    rw [groupMean, hfeb]; norm_num
  have hgCjan : groupMean sampleData Record.count "Jan" = 200 := by
    rw [groupMean, hjan]; norm_num
  have hgCfeb : groupMean sampleData Record.count "Feb" = 50 := by
    rw [groupMean, hfeb]; norm_num
  have hr200 : roundHalfEven 200 = 200 := by
    rw [show (200 : ℚ) = ((200 : ℤ) : ℚ) by norm_num, roundHalfEven_intCast]
  have hr50 : roundHalfEven 50 = 50 := by
    rw [show (50 : ℚ) = ((50 : ℤ) : ℚ) by norm_num, roundHalfEven_intCast]
  have hA : avg_fire_area sampleData = [("Jan", 15), ("Feb", 5)] := by
    rw [avg_fire_area, hmonths]
    simp only [List.map_cons, List.map_nil, hgAjan, hgAfeb]
  have hTA : total_area sampleData = 20 := by
    rw [total_area, hA]; norm_num
  have hC : avg_count_pixels sampleData = [("Jan", 200), ("Feb", 50)] := by
    rw [avg_count_pixels, hmonths]
    simp only [List.map_cons, List.map_nil, hgCjan, hgCfeb, hr200, hr50]
    norm_num
  have hTP : total_pixels sampleData = 250 := by
    rw [total_pixels, hC]; norm_num
  rw [hA, hTA, hC, hTP]

/-! Claim theorems. -/

/-- C1: for every dataset, region and year, the `total_pixels` value
returned by `compute_info` is the sum over the months of the filtered
subset of the per-month mean pixel counts, each rounded (half-to-even)
to the nearest integer before the summation. -/
theorem c1_total_pixels_rounds_before_sum
    (data : List Record) (entered_region entered_year : String) (y : Int)
    (aa ac : List (String × ℚ)) (ta tp : ℚ)
    (hy : pyInt entered_year = some y)
    (h : compute_info data entered_region entered_year = some (aa, ta, ac, tp)) :
    tp = ((firstOccurrences ((filterDF data entered_region y).map Record.month_name)).map
        (fun m => ((roundHalfEven
          (groupMean (filterDF data entered_region y) Record.count m) : ℤ) : ℚ))).sum := by
  rw [compute_info_eq_some data entered_region hy] at h
  simp only [Option.some.injEq, Prod.mk.injEq] at h
  obtain ⟨h1, h2, h3, h4⟩ := h
  subst h4
  rw [total_pixels, avg_count_pixels, List.map_map, ← monthsInOrder_eq_firstOccurrences]
  rfl

/-- C2: for every dataset, region and year, the `total_area` value
returned by `compute_info` equals exactly the sum of the per-month mean
values in the `avg_fire_area` table it returns. -/
theorem c2_total_area_is_sum_of_returned_means
    (data : List Record) (entered_region entered_year : String)
    (aa ac : List (String × ℚ)) (ta tp : ℚ)
    (h : compute_info data entered_region entered_year = some (aa, ta, ac, tp)) :
    ta = (aa.map Prod.snd).sum := by
  unfold compute_info at h
  cases hy : pyInt entered_year with
  | none => rw [hy] at h; exact absurd h (by simp)
  | some y =>
    rw [hy] at h
    simp only [Option.some.injEq, Prod.mk.injEq] at h
    obtain ⟨h1, h2, h3, h4⟩ := h
    subst h1 h2
    rfl

/-- C3: for every dataset, region and year, the sequence of month names
in both aggregate tables returned by `compute_info` is the order in which
distinct month names first appear in the filtered subset. -/
theorem c3_month_order_is_first_occurrence_order
    (data : List Record) (entered_region entered_year : String) (y : Int)
    (aa ac : List (String × ℚ)) (ta tp : ℚ)
    (hy : pyInt entered_year = some y)
    (h : compute_info data entered_region entered_year = some (aa, ta, ac, tp)) :
    aa.map Prod.fst
        = firstOccurrences ((filterDF data entered_region y).map Record.month_name)
    ∧ ac.map Prod.fst
        = firstOccurrences ((filterDF data entered_region y).map Record.month_name) := by
  rw [compute_info_eq_some data entered_region hy] at h
  simp only [Option.some.injEq, Prod.mk.injEq] at h
  obtain ⟨h1, h2, h3, h4⟩ := h
  subst h1 h3
  rw [← monthsInOrder_eq_firstOccurrences]
  exact ⟨map_fst_pairs _ _, map_fst_pairs _ _⟩

/-- C4: for every dataset, region and year, `compute_info` aggregates
exactly the records whose region equals the selected region and whose
year equals the selected year cast to an integer: its row filter is this
conjunction, and dropping every non-matching record up front leaves the
whole result unchanged. -/
theorem c4_filter_is_region_and_year_conjunction
    (data : List Record) (entered_region entered_year : String) (y : Int)
    (hy : pyInt entered_year = some y) :
    filterDF data entered_region y
        = data.filter (fun r => decide (r.region = entered_region ∧ r.year = y))
    ∧ compute_info data entered_region entered_year
        = compute_info
            (data.filter (fun r => r.region == entered_region && r.year == y))
            entered_region entered_year := by
  have hpred : ∀ r : Record, (r.region == entered_region && r.year == y)
      = decide (r.region = entered_region ∧ r.year = y) := by
    intro r
    by_cases h1 : r.region = entered_region <;> by_cases h2 : r.year = y <;>
      simp [h1, h2]
  refine ⟨by rw [filterDF]; exact List.filter_congr (fun r _ => hpred r), ?_⟩
  rw [compute_info_eq_some data entered_region hy,
    compute_info_eq_some _ entered_region hy]
  have hidem : filterDF
      (data.filter (fun r => r.region == entered_region && r.year == y))
      entered_region y = filterDF data entered_region y := by
    rw [filterDF, filterDF, List.filter_filter]
    exact List.filter_congr (fun r _ => by rw [Bool.and_self])
  rw [hidem]

/-- C6: for every dataset, region and year whose filtered subset is
empty, `compute_info` raises no error and returns two empty aggregate
tables with both totals equal to 0. -/
theorem c6_empty_filter_yields_empty_tables_and_zero_totals
    (data : List Record) (entered_region entered_year : String) (y : Int)
    (hy : pyInt entered_year = some y)
    (hempty : filterDF data entered_region y = []) :
    compute_info data entered_region entered_year = some ([], 0, [], 0) := by
  rw [compute_info_eq_some data entered_region hy, hempty]
  rfl

/-- C5: on the three-row worked dataset of the specification,
`compute_info` with region `NSW` and year `2019` returns
`avg_area = {Jan: 15, Feb: 5}`, `total_area = 20`,
`avg_count = {Jan: 200, Feb: 50}` and `total_pixels = 250`. -/
theorem c5_worked_scenario :
    compute_info sampleData "NSW" "2019"
      = some ([("Jan", 15), ("Feb", 5)], 20, [("Jan", 200), ("Feb", 50)], 250) :=
  sample_eval

/-- C7 counterexample: a year value that is not a decimal integer makes
the `int(entered_year)` cast in `compute_info` raise `ValueError`
(modelled as `none`), instead of yielding an empty result set. -/
theorem c7_counterexample_non_numeric_year_raises :
    compute_info [] "NSW" "banana" = none := by
  decide

/-- C7 (amended): for every region value and every year value whose
string parses as an integer under `int(...)`, if no record matches the
region and the parsed year then `compute_info` raises no error and
yields the empty result set; a year string that does not parse as an
integer raises `ValueError` instead. -/
theorem c7_amended_empty_result_for_unmatched_selection
    (data : List Record) (entered_region entered_year : String) (y : Int)
    (hy : pyInt entered_year = some y)
    (hempty : data.filter
      (fun r => r.region == entered_region && r.year == y) = []) :
    compute_info data entered_region entered_year = some ([], 0, [], 0) := by
  rw [compute_info_eq_some data entered_region hy]
  rw [show filterDF data entered_region y = [] from hempty]
  rfl

/-- C8: `compute_info` and both chart builders are deterministic and
stateless functions of their inputs: two calls on the same dataset,
region and year agree, and the chart builders map equal inputs to equal
chart descriptions. -/
theorem c8_deterministic_and_pure
    (data : List Record) (entered_region entered_year : String)
    (aa aa' ac ac' : List (String × ℚ)) (ta ta' tp tp' : ℚ)
    (h1 : aa = aa') (h2 : ta = ta') (h3 : ac = ac') (h4 : tp = tp') :
    compute_info data entered_region entered_year
        = compute_info data entered_region entered_year
    ∧ generate_donut aa ta = generate_donut aa' ta'
    ∧ generate_bar ac tp = generate_bar ac' tp' := by
  subst h1 h2 h3 h4
  exact ⟨rfl, rfl, rfl⟩

/-- C10: for every dataset, region and year, the `total_pixels` value
returned by `compute_info` is integer-valued, so the `int(total_pixels)`
truncation displayed by `generate_bar` shows the exact total. -/
theorem c10_bar_total_displays_exactly
    (data : List Record) (entered_region entered_year : String)
    (aa ac : List (String × ℚ)) (ta tp : ℚ)
    (h : compute_info data entered_region entered_year = some (aa, ta, ac, tp)) :
    (((generate_bar ac tp).totalShown : ℤ) : ℚ) = tp := by
  unfold compute_info at h
  cases hy : pyInt entered_year with
  | none => rw [hy] at h; exact absurd h (by simp)
  | some y =>
    rw [hy] at h
    simp only [Option.some.injEq, Prod.mk.injEq] at h
    obtain ⟨h1, h2, h3, h4⟩ := h
    subst h4
    show (((pyTrunc (total_pixels _)) : ℤ) : ℚ) = total_pixels _
    rw [total_pixels_eq_intCast, pyTrunc_intCast]

/-! Witnesses. -/

/-- Witness for C1 at the worked dataset. -/
theorem c1_total_pixels_rounds_before_sum_witness :
    pyInt "2019" = some 2019
    ∧ (250 : ℚ) = ((firstOccurrences
          ((filterDF sampleData "NSW" 2019).map Record.month_name)).map
        (fun m => ((roundHalfEven
          (groupMean (filterDF sampleData "NSW" 2019) Record.count m) : ℤ) : ℚ))).sum :=
  ⟨by decide,
   c1_total_pixels_rounds_before_sum sampleData "NSW" "2019" 2019
     [("Jan", 15), ("Feb", 5)] [("Jan", 200), ("Feb", 50)] 20 250
     (by decide) sample_eval⟩

/-- Witness for C2 at the worked dataset. -/
theorem c2_total_area_is_sum_of_returned_means_witness :
    (20 : ℚ) = (([("Jan", (15 : ℚ)), ("Feb", 5)].map Prod.snd)).sum :=
  c2_total_area_is_sum_of_returned_means sampleData "NSW" "2019"
    [("Jan", 15), ("Feb", 5)] [("Jan", 200), ("Feb", 50)] 20 250 sample_eval

/-- Witness for C3 at the worked dataset. -/
theorem c3_month_order_is_first_occurrence_order_witness :
    ([("Jan", (15 : ℚ)), ("Feb", 5)].map Prod.fst)
        = firstOccurrences ((filterDF sampleData "NSW" 2019).map Record.month_name)
    ∧ ([("Jan", (200 : ℚ)), ("Feb", 50)].map Prod.fst)
        = firstOccurrences ((filterDF sampleData "NSW" 2019).map Record.month_name) :=
  c3_month_order_is_first_occurrence_order sampleData "NSW" "2019" 2019
    [("Jan", 15), ("Feb", 5)] [("Jan", 200), ("Feb", 50)] 20 250
    (by decide) sample_eval

/-- Witness for C4 at the worked dataset. -/
theorem c4_filter_is_region_and_year_conjunction_witness :
    filterDF sampleData "NSW" 2019
        = sampleData.filter (fun r => decide (r.region = "NSW" ∧ r.year = 2019))
    ∧ compute_info sampleData "NSW" "2019"
        = compute_info
            (sampleData.filter (fun r => r.region == "NSW" && r.year == 2019))
            "NSW" "2019" :=
  c4_filter_is_region_and_year_conjunction sampleData "NSW" "2019" 2019 (by decide)

/-- Witness for C6: the worked dataset has no `QLD` rows. -/
theorem c6_empty_filter_yields_empty_tables_and_zero_totals_witness :
    pyInt "2019" = some 2019
    ∧ filterDF sampleData "QLD" 2019 = []
    ∧ compute_info sampleData "QLD" "2019" = some ([], 0, [], 0) :=
  ⟨by decide, by decide,
   c6_empty_filter_yields_empty_tables_and_zero_totals sampleData "QLD" "2019" 2019
     (by decide) (by decide)⟩

/-- Witness for the amended C7: an unknown region with a parseable year. -/
theorem c7_amended_empty_result_for_unmatched_selection_witness :
    pyInt "2019" = some 2019
    ∧ sampleData.filter (fun r => r.region == "ACT" && r.year == 2019) = []
    ∧ compute_info sampleData "ACT" "2019" = some ([], 0, [], 0) :=
  ⟨by decide, by decide,
   c7_amended_empty_result_for_unmatched_selection sampleData "ACT" "2019" 2019
     (by decide) (by decide)⟩

/-- Witness for C8 at concrete inputs. -/
theorem c8_deterministic_and_pure_witness :
    compute_info sampleData "NSW" "2019" = compute_info sampleData "NSW" "2019"
    ∧ generate_donut [("Jan", 15), ("Feb", 5)] 20
        = generate_donut [("Jan", 15), ("Feb", 5)] 20
    ∧ generate_bar [("Jan", 200), ("Feb", 50)] 250
        = generate_bar [("Jan", 200), ("Feb", 50)] 250 :=
  c8_deterministic_and_pure sampleData "NSW" "2019"
    [("Jan", 15), ("Feb", 5)] [("Jan", 15), ("Feb", 5)]
    [("Jan", 200), ("Feb", 50)] [("Jan", 200), ("Feb", 50)]
    20 20 250 250 rfl rfl rfl rfl

/-- Witness for C10 at the worked dataset. -/
theorem c10_bar_total_displays_exactly_witness :
    (((generate_bar [("Jan", 200), ("Feb", 50)] 250).totalShown : ℤ) : ℚ) = 250 :=
  c10_bar_total_displays_exactly sampleData "NSW" "2019"
    [("Jan", 15), ("Feb", 5)] [("Jan", 200), ("Feb", 50)] 20 250 sample_eval

end Wildfires
